import Mathlib

/-!
# Verification of the vyked service-mesh core

A shallow embedding of the registry / bus code of the `vyked` repository
(`src/vyked/registry.py`, `src/vyked/packet.py`, `src/vyked/bus.py`) together
with proofs and refutations of the specification's claims about it.

Python values that flow through the modelled code are either strings or
integers; `PyVal` models them with Python's dynamic equality (values of
distinct types are never equal, so `1 == '1'` is false).  Python `dict`s are
modelled as insertion-ordered association lists with unique keys,
`defaultdict(list)` by append-or-create helpers, and exceptors
(`KeyError`, `ValueError` from tuple unpacking) by `Option` results where the
modelled flow can raise.
-/

set_option linter.unusedVariables false

/-- A dynamically-typed Python scalar value (string or int). -/
inductive PyVal where
  | str (s : String)
  | int (n : Int)
deriving DecidableEq, Repr

instance : BEq PyVal := ⟨fun a b => decide (a = b)⟩

/-- Model of `str(x)` as used by `'{}/{}'.format` in `Repository._get_full_service_name`. -/
def PyVal.format : PyVal → String
  | .str s => s
  | .int n => toString n

/-- Python `dict` lookup (`d.get(k)` / `d[k]`): first entry with the key.
Keys are unique in every modelled dict, so first-match is exact. -/
def pyGet {κ α : Type} [DecidableEq κ] (d : List (κ × α)) (k : κ) : Option α :=
  match d with
  | [] => none
  | (k0, v) :: rest => if k0 = k then some v else pyGet rest k

/-- Python `d[k] = v`: replace in place when the key exists, append otherwise. -/
def pyDictSet {κ α : Type} [DecidableEq κ] (d : List (κ × α)) (k : κ) (v : α) :
    List (κ × α) :=
  match d with
  | [] => [(k, v)]
  | (k0, v0) :: rest =>
      if k0 = k then (k0, v) :: rest else (k0, v0) :: pyDictSet rest k v

/-- Python `d.pop(k, None)`: drop the entry with the key, if any. -/
def pyDictPop {κ α : Type} [DecidableEq κ] (d : List (κ × α)) (k : κ) :
    List (κ × α) :=
  match d with
  | [] => []
  | (k0, v0) :: rest => if k0 = k then rest else (k0, v0) :: pyDictPop rest k

/-- Model of `defaultdict(list)`: `d[k].append(x)` — append to the bucket in place,
creating the bucket at the end of the dict when the key is new. -/
def ddAppend {κ α : Type} [DecidableEq κ] (d : List (κ × List α)) (k : κ) (x : α) :
    List (κ × List α) :=
  match d with
  | [] => [(k, [x])]
  | (k0, v) :: rest =>
      if k0 = k then (k0, v ++ [x]) :: rest else (k0, v) :: ddAppend rest k x

/-- In-place update of the value stored under a key (used to model mutating the
list object aliased out of the dict). -/
def ddUpdate {κ α : Type} [DecidableEq κ] (d : List (κ × α)) (k : κ) (f : α → α) :
    List (κ × α) :=
  match d with
  | [] => []
  | (k0, v) :: rest =>
      if k0 = k then (k0, f v) :: rest else (k0, v) :: ddUpdate rest k f

/-- Python `list.remove(x)`: delete the first occurrence of `x`.  (Python raises
`ValueError` when `x` is absent; every modelled call site removes an element
just read from the list, so the element is present.) -/
def pyRemove {α : Type} [DecidableEq α] (l : List α) (x : α) : List α :=
  match l with
  | [] => []
  | y :: rest => if y = x then rest else y :: pyRemove rest x

/-- Python `str.split(sep)` worker over explicit character lists. -/
def pySplitAux (sep : Char) : List Char → List Char → List (List Char)
  | [], acc => [acc.reverse]
  | c :: cs, acc =>
      if c = sep then acc.reverse :: pySplitAux sep cs []
      else pySplitAux sep cs (c :: acc)

/-- Python `str.split(sep)` for a one-character separator. -/
def pySplit (sep : Char) (s : String) : List String :=
  (pySplitAux sep s.toList []).map fun cs => String.mk cs

namespace Repository

/-- Model of `Repository._get_full_service_name`: `'{}/{}'.format(service, version)`. -/
def _get_full_service_name (service version : PyVal) : String :=
  service.format ++ "/" ++ version.format

/-- Model of `Repository._split_key`: `tuple(key.split('/'))`. -/
def _split_key (key : String) : List PyVal :=
  (pySplit '/' key).map PyVal.str

end Repository

/-- A dependency descriptor dict `{'service': …, 'version': …}` as stored in
`_service_dependencies` (the `vendors` entries of a register packet). -/
structure Dep where
  service : PyVal
  version : PyVal
deriving DecidableEq, Repr

/-- A registered instance entry: the tuple
`(service.host, service.port, service.node_id, service.type)`. -/
structure Inst where
  host : PyVal
  port : PyVal
  node_id : PyVal
  service_type : PyVal
deriving DecidableEq, Repr

/-- The namedtuple `Service` of `registry.py`. -/
structure ServiceRec where
  name : PyVal
  version : PyVal
  dependencies : List Dep
  host : PyVal
  port : PyVal
  node_id : PyVal
  service_type : PyVal
deriving DecidableEq, Repr

/-- The `Repository` state: `_registered_services` and `_pending_services` are
`defaultdict(list)`, `_service_dependencies` a plain dict. -/
structure Repo where
  registered : List (String × List Inst)
  pending : List (String × List PyVal)
  deps : List (String × List Dep)
deriving DecidableEq, Repr

namespace Repository

def emptyRepo : Repo := ⟨[], [], []⟩

/-- Model of `Repository.register_service`. -/
def register_service (r : Repo) (s : ServiceRec) : Repo :=
  let service_name := _get_full_service_name s.name s.version
  let service_entry : Inst := ⟨s.host, s.port, s.node_id, s.service_type⟩
  { registered := ddAppend r.registered service_name service_entry
    pending := ddAppend r.pending service_name s.node_id
    deps :=
      if (pyGet r.deps service_name).isNone then
        pyDictSet r.deps service_name s.dependencies
      else r.deps }

/-- Model of `Repository.add_pending_service`. -/
def add_pending_service (r : Repo) (service version node_id : PyVal) : Repo :=
  { r with pending := ddAppend r.pending (_get_full_service_name service version) node_id }

/-- Model of `Repository.get_pending_services`: `[split_key(key) for key in keys]`. -/
def get_pending_services (r : Repo) : List (List PyVal) :=
  r.pending.map fun e => _split_key e.1

/-- Model of `Repository.get_pending_instances` (`dict.get(key, [])`; the returned list
is the live bucket, aliasing the dict entry). -/
def get_pending_instances (r : Repo) (service version : PyVal) : List PyVal :=
  (pyGet r.pending (_get_full_service_name service version)).getD []

/-- Model of `Repository.remove_pending_instance`: `get_pending_instances(...).remove(node_id)`
mutates the aliased bucket in place. -/
def remove_pending_instance (r : Repo) (service version node_id : PyVal) : Repo :=
  { r with
    pending := ddUpdate r.pending (_get_full_service_name service version)
                 (fun l => pyRemove l node_id) }

/-- Model of `Repository.get_instances`. -/
def get_instances (r : Repo) (service version : PyVal) : List Inst :=
  (pyGet r.registered (_get_full_service_name service version)).getD []

/-- Model of `Repository.get_consumers`: scan every `_service_dependencies` entry and
collect `split_key(service)` once per matching dependency dict. -/
def get_consumers (r : Repo) (service_name service_version : PyVal) : List (List PyVal) :=
  r.deps.flatMap fun e =>
    (e.2.filter fun each =>
        each.service == service_name && each.version == service_version).map
      fun _ => _split_key e.1

/-- Model of `Repository.get_vendors` (`dict.get(key, [])`). -/
def get_vendors (r : Repo) (service version : PyVal) : List Dep :=
  (pyGet r.deps (_get_full_service_name service version)).getD []

/-- Model of `Repository.get_node`: walk the registered buckets; on the first instance
whose `node_id` matches, two-unpack `split_key` (a `ValueError` — modelled as
`none` — if the key does not split into exactly two parts) and rebuild a
`Service`.  `some none` models the Python `return None`. -/
def get_nodeAux (node_id : PyVal) :
    List (String × List Inst) → Option (Option ServiceRec)
  | [] => some none
  | (service, instances) :: rest =>
      match instances.find? (fun i => node_id == i.node_id) with
      | some i =>
          match _split_key service with
          | [name, version] =>
              some (some ⟨name, version, [], i.host, i.port, i.node_id, i.service_type⟩)
          | _ => none
      | none => get_nodeAux node_id rest

/-- Model of `Repository.get_node`. -/
def get_node (r : Repo) (node_id : PyVal) : Option (Option ServiceRec) :=
  get_nodeAux node_id r.registered

end Repository

/-- Fresh `pid` strings: `str(uuid4())` in `_Packet._next_pid` yields a fresh
string per packet; modelled by a counter threaded through the operations. -/
def nextPidStr (n : Nat) : String := "pid-" ++ toString n

/-- A flat packet dict (a JSON object whose values are scalars). -/
abbrev Packet := List (String × PyVal)

namespace _Packet

/-- Model of `_Packet.ack`. -/
def ack (pid : String) (request_id : PyVal) : Packet :=
  [("pid", .str pid), ("type", .str "ack"), ("request_id", request_id)]

/-- Model of `_Packet._get_ping_pong`. -/
def _get_ping_pong (pid : String) (node_id : PyVal) (packet_type : String) : Packet :=
  [("pid", .str pid), ("type", .str packet_type), ("node_id", node_id)]

/-- Model of `_Packet.pong`. -/
def pong (pid : String) (node_id : PyVal) : Packet :=
  _get_ping_pong pid node_id "pong"

/-- Model of `_Packet.ping`. -/
def ping (pid : String) (node_id : PyVal) : Packet :=
  _get_ping_pong pid node_id "ping"

end _Packet

/-- The `deregister` envelope's `params`. -/
structure DeregisterPacket where
  pid : String
  node_id : PyVal
  service : PyVal
  version : PyVal
deriving DecidableEq, Repr

/-- One vendor block of an `activated` (`registered`) envelope. -/
structure VendorBlock where
  name : PyVal
  version : PyVal
  addresses : List Inst
deriving DecidableEq, Repr

/-- The `registered` (activation) envelope. -/
structure ActivatedPacket where
  pid : String
  vendors : List VendorBlock
deriving DecidableEq, Repr

/-- The `instances` envelope built by `ControlPacket.send_instances`. -/
structure InstancesPacket where
  pid : String
  service : PyVal
  version : PyVal
  instances : List Inst
deriving DecidableEq, Repr

namespace ControlPacket

/-- Four-unpacking `host, port, node, service_type` of one Python tuple;
`none` models the `ValueError` on any other arity. -/
def tuple4 : List PyVal → Option Inst
  | [host, port, node, service_type] => some ⟨host, port, node, service_type⟩
  | _ => none

/-- Model of `ControlPacket.send_instances`: the list comprehension four-unpacks every
entry of `instances`. -/
def send_instances (pid : String) (service version : PyVal)
    (instances : List (List PyVal)) : Option InstancesPacket :=
  (instances.mapM tuple4).map fun l => ⟨pid, service, version, l⟩

/-- Model of `ControlPacket.deregister`. -/
def deregister (pid : String) (service version node_id : PyVal) : DeregisterPacket :=
  ⟨pid, node_id, service, version⟩

/-- Model of `ControlPacket.activated` applied to the insertion-ordered instances dict. -/
def activated (pid : String) (instances : List ((PyVal × PyVal) × List Inst)) :
    ActivatedPacket :=
  ⟨pid, instances.map fun e => ⟨e.1.1, e.1.2, e.2⟩⟩

end ControlPacket

namespace MessagePacket

/-- Model of `MessagePacket.publish`. -/
def publish (pid : String) (publish_id service version endpoint payload : PyVal) : Packet :=
  [("pid", .str pid), ("type", .str "publish"), ("service", service),
   ("version", version), ("endpoint", endpoint), ("payload", payload),
   ("publish_id", publish_id)]

end MessagePacket

/-- Observable network actions of the Registry (protocol objects are modelled
by numeric ids). -/
inductive Effect where
  | sendActivated (proto : Nat) (pkt : ActivatedPacket)
  | sendDeregister (proto : Nat) (pkt : DeregisterPacket)
  | sendInstances (proto : Nat) (pkt : InstancesPacket)
  | connect (host port : PyVal)
deriving DecidableEq, Repr

/-- The `Registry` server state: the repository plus the two protocol maps
(`node_id → protocol`) and the pid counter. -/
structure RegState where
  repo : Repo
  client_protocols : List (PyVal × Nat)
  service_protocols : List (PyVal × Nat)
  pidCounter : Nat
deriving DecidableEq, Repr

namespace Registry

def initState : RegState := ⟨Repository.emptyRepo, [], [], 0⟩

/-- Model of `Registry._make_activated_packet`: the dict comprehension keyed by
`(vendor['service'], vendor['version'])`. -/
def _make_activated_packet (r : Repo) (service version : PyVal) (pid : String) :
    ActivatedPacket :=
  let vendors := Repository.get_vendors r service version
  let instances := vendors.foldl
    (fun d vendor =>
      pyDictSet d (vendor.service, vendor.version)
        (Repository.get_instances r vendor.service vendor.version)) []
  ControlPacket.activated pid instances

/-- The node loop of `Registry._handle_pending_registrations`:
`for node in self._repository.get_pending_instances(service, version)`.
Python's list iterator walks an index over the *live* pending bucket while the
body (`_send_activated_packet` then `remove_pending_instance`) removes the
current node from that same bucket.  `lst` is the live bucket, kept in
lock-step with the repository state, and `i` is the iterator index; the
protocol lookup `self._client_protocols[node]` raises `KeyError` (modelled
`none`) when the node has no recorded protocol.  The structural `fuel`
argument bounds the iteration count: the index grows by one each step and
the live list never grows, so the loop ends after at most the initial list
length iterations and the caller's `lst.length + 1` fuel never runs out. -/
def activationLoop (service version : PyVal) (should_activate : Bool)
    (st : RegState) (effs : List Effect) (lst : List PyVal) (i : Nat) :
    Nat → Option (RegState × List Effect)
  | 0 => none
  | fuel + 1 =>
    if h : i < lst.length then
      let node := lst.get ⟨i, h⟩
      if should_activate then
        match pyGet st.client_protocols node with
        | none => none
        | some proto =>
            let pkt := _make_activated_packet st.repo service version (nextPidStr st.pidCounter)
            let st2 : RegState :=
              { st with
                repo := Repository.remove_pending_instance st.repo service version node
                pidCounter := st.pidCounter + 1 }
            activationLoop service version should_activate st2
              (effs ++ [Effect.sendActivated proto pkt]) (pyRemove lst node) (i + 1) fuel
      else
        activationLoop service version should_activate st effs lst (i + 1) fuel
    else some (st, effs)

/-- The service loop of `Registry._handle_pending_registrations`: the pending
`(service, version)` list is computed once before the loop; each key tuple is
two-unpacked (`ValueError`, modelled `none`, on any other arity), the vendor
scan computes `should_activate` with an early break, and the node loop runs. -/
def sweepAux (st : RegState) (effs : List Effect) :
    List (List PyVal) → Option (RegState × List Effect)
  | [] => some (st, effs)
  | [service, version] :: rest =>
      let vendors := Repository.get_vendors st.repo service version
      let should_activate := vendors.all fun vendor =>
        (Repository.get_instances st.repo vendor.service vendor.version).length != 0
      match activationLoop service version should_activate st effs
          (Repository.get_pending_instances st.repo service version) 0
          ((Repository.get_pending_instances st.repo service version).length + 1) with
      | none => none
      | some (st2, effs2) => sweepAux st2 effs2 rest
  | _ :: _ => none

/-- Model of `Registry._handle_pending_registrations`. -/
def _handle_pending_registrations (st : RegState) : Option (RegState × List Effect) :=
  sweepAux st [] (Repository.get_pending_services st.repo)

/-- The `params` dict of a `register` packet. -/
structure RegisterParams where
  service : PyVal
  version : PyVal
  vendors : List Dep
  port : PyVal
  node_id : PyVal
  service_type : PyVal
deriving DecidableEq, Repr

/-- Model of `Registry.register_service`: build the `Service` record from the params
and the peer `host`, register it, record the inbound protocol under the
node id, start the outbound control connection when the type is `tcp`
(`_connect_to_service`, modelled as a `connect` action; its completion
callback that fills `service_protocols` is asynchronous and not part of this
call), then run the activation sweep. -/
def register_service (st : RegState) (params : RegisterParams)
    (registry_protocol : Nat) (host : PyVal) : Option (RegState × List Effect) :=
  let service : ServiceRec :=
    ⟨params.service, params.version, params.vendors, host, params.port,
      params.node_id, params.service_type⟩
  let st1 : RegState :=
    { st with
      repo := Repository.register_service st.repo service
      client_protocols := pyDictSet st.client_protocols params.node_id registry_protocol }
  let connEffs :=
    if params.service_type = PyVal.str "tcp" then [Effect.connect host params.port] else []
  match _handle_pending_registrations st1 with
  | none => none
  | some (st2, effs) => some (st2, connEffs ++ effs)

/-- Inner loop of `Registry._notify_consumers`: send the deregister packet to
every instance of one consumer; `self._client_protocols[node]` raises
`KeyError` (modelled `none`) for an unknown node. -/
def notifyInstLoop (cps : List (PyVal × Nat)) (pkt : DeregisterPacket) :
    List Inst → Option (List Effect)
  | [] => some []
  | inst :: rest => do
      let proto ← pyGet cps inst.node_id
      let more ← notifyInstLoop cps pkt rest
      pure (Effect.sendDeregister proto pkt :: more)

/-- Outer loop of `Registry._notify_consumers`: two-unpack each consumer
tuple (`ValueError`, modelled `none`, on any other arity). -/
def notifyConsumerLoop (cps : List (PyVal × Nat)) (r : Repo) (pkt : DeregisterPacket) :
    List (List PyVal) → Option (List Effect)
  | [] => some []
  | [consumer_name, consumer_version] :: rest => do
      let effs ← notifyInstLoop cps pkt
        (Repository.get_instances r consumer_name consumer_version)
      let more ← notifyConsumerLoop cps r pkt rest
      pure (effs ++ more)
  | _ :: _ => none

/-- Model of `Registry._notify_consumers`. -/
def _notify_consumers (st : RegState) (service version node_id : PyVal) :
    Option (RegState × List Effect) :=
  let pkt := ControlPacket.deregister (nextPidStr st.pidCounter) service version node_id
  match notifyConsumerLoop st.client_protocols st.repo pkt
      (Repository.get_consumers st.repo service version) with
  | none => none
  | some effs => some ({ st with pidCounter := st.pidCounter + 1 }, effs)

/-- Model of `Registry.deregister_service`.  After dropping the protocol handles and
notifying consumers, the re-pend branch fires only when
`get_instances(service.name, service.version)` is empty; the two-unpack
`consumer_name, consumer_version = get_consumers(...)` raises unless that
list has exactly two elements (modelled `none`), and the re-pend loop then
iterates over `get_instances(service.name, service.version)` — the very list
the guard just found empty — so it never executes a body iteration. -/
def deregister_service (st : RegState) (node_id : PyVal) :
    Option (RegState × List Effect) :=
  match Repository.get_node st.repo node_id with
  | none => none
  | some none => some (st, [])
  | some (some service) =>
      let st1 : RegState :=
        { st with
          service_protocols := pyDictPop st.service_protocols node_id
          client_protocols := pyDictPop st.client_protocols node_id }
      match _notify_consumers st1 service.name service.version node_id with
      | none => none
      | some (st2, effs) =>
          if (Repository.get_instances st2.repo service.name service.version).length = 0 then
            match Repository.get_consumers st2.repo service.name service.version with
            | [_, _] => some (st2, effs)
            | _ => none
          else some (st2, effs)

/-- Model of `Registry.get_service_instances`: the body fetches
`get_consumers(service, version)` (not `get_instances`) and hands the result
to `ControlPacket.send_instances`, replying on the requesting protocol. -/
def get_service_instances (st : RegState) (service version : PyVal)
    (registry_protocol : Nat) : Option (RegState × List Effect) :=
  let instances := Repository.get_consumers st.repo service version
  match ControlPacket.send_instances (nextPidStr st.pidCounter) service version instances with
  | none => none
  | some pkt =>
      some ({ st with pidCounter := st.pidCounter + 1 },
        [Effect.sendInstances registry_protocol pkt])

end Registry

namespace TCPBus

/-- The `from`-stamping step of `TCPBus.send`:
`packet['from'] = self._host_id`. -/
def stamp_from (host_id : String) (packet : Packet) : Packet :=
  pyDictSet packet "from" (PyVal.str host_id)

/-- Model of `TCPBus.send`: stamp `from`, then dispatch on `'_' + packet['type'] + '_sender'`;
the only sender defined is `_request_sender`, which enqueues the packet on
`pending_requests` (the subsequent drain needs the registry client and the
live connections, which are external collaborators); a missing `type` key or
any other type value raises (modelled `none`). -/
def send (host_id : String) (pending_requests : List Packet) (packet : Packet) :
    Option (List Packet) :=
  match pyGet (stamp_from host_id packet) "type" with
  | some (PyVal.str "request") => some (pending_requests ++ [stamp_from host_id packet])
  | _ => none

/-- Model of `TCPBus._handle_ping`: reply `protocol.send(ControlPacket.pong(packet['node_id']))`
directly on the protocol object — not through `TCPBus.send`. -/
def _handle_ping (pidc : Nat) (packet : Packet) : Option Packet :=
  (pyGet packet "node_id").map fun n => _Packet.pong (nextPidStr pidc) n

/-- A local service-client handle (only its routing key matters here). -/
structure ServiceClient where
  name : PyVal
  version : PyVal
deriving DecidableEq, Repr

/-- Model of `TCPBus._handle_publish`: read the five fields (each a `KeyError`,
modelled `none`, when missing), invoke the endpoint on every matching service
client, then reply `protocol.send(MessagePacket.ack(publish_id))` directly on
the protocol.  Result: the handler invocations and the ack packet sent. -/
def _handle_publish (pidc : Nat) (service_clients : List ServiceClient)
    (packet : Packet) : Option (List (ServiceClient × PyVal) × Packet) := do
  let service ← pyGet packet "service"
  let version ← pyGet packet "version"
  let endpoint ← pyGet packet "endpoint"
  let payload ← pyGet packet "payload"
  let publish_id ← pyGet packet "publish_id"
  let calls := (service_clients.filter fun c =>
      c.name == service && c.version == version).map fun c => (c, endpoint)
  pure (calls, _Packet.ack (nextPidStr pidc) publish_id)

/-- The `pong` branch of `TCPBus.receive`:
`self._handle_pong(packet['node_id'], packet['count'])` reads both fields from
the received packet (`KeyError`, modelled `none`, when either is absent), then
`_handle_pong` looks up `self._pingers[node_id]`.  Result: the pinger handle
and the count passed to `pong_received`. -/
def receive_pong (pingers : List (PyVal × Nat)) (packet : Packet) :
    Option (Nat × PyVal) := do
  let node_id ← pyGet packet "node_id"
  let count ← pyGet packet "count"
  let pinger ← pyGet pingers node_id
  pure (pinger, count)

end TCPBus

/-- One subscriber dict as returned by the registry client's `get_subscribers`. -/
structure Subscriber where
  service : PyVal
  version : PyVal
  host : PyVal
  port : PyVal
  node_id : PyVal
  strategy : PyVal
deriving DecidableEq, Repr

/-- One entry of a strategy group: the tuple
`(subscriber['host'], subscriber['port'], subscriber['node_id'], subscriber['strategy'])`. -/
structure SubEntry where
  host : PyVal
  port : PyVal
  node_id : PyVal
  strategy : PyVal
deriving DecidableEq, Repr

/-- Observable actions of `PubSubBus`. -/
inductive PubAction where
  | cancel (future : Nat)
  | closeTransport
  | connect (host port : PyVal)
  | sendPublish (host port : PyVal) (pkt : Packet)
  | scheduleRetry (publish_id : PyVal)
deriving DecidableEq, Repr

namespace PubSubBus

/-- The grouping loop of `PubSubBus.xpublish`:
`strategies[(service, version)].append((host, port, node_id, strategy))` over
a `defaultdict(list)`. -/
def buildStrategies (subscribers : List Subscriber) :
    List ((PyVal × PyVal) × List SubEntry) :=
  subscribers.foldl
    (fun d s =>
      ddAppend d (s.service, s.version) ⟨s.host, s.port, s.node_id, s.strategy⟩) []

/-- Target selection of `PubSubBus._connect_and_publish` for one group:
`value[0][3] == 'LEADER'` picks the first entry, otherwise
`random.choice(value)` picks one entry, modelled by the draw index `r`
(`random.choice` only ever produces an `r < value.length`).  `value[0]` on an
empty group raises `IndexError` (modelled `none`; groups built by
`buildStrategies` are never empty). -/
def selectTarget (value : List SubEntry) (r : Nat) : Option (PyVal × PyVal) :=
  match value with
  | [] => none
  | v0 :: _ =>
      if v0.strategy == PyVal.str "LEADER" then some (v0.host, v0.port)
      else value[r]?.map fun m => (m.host, m.port)

/-- The group loop of `PubSubBus._connect_and_publish`: per group, select a
target, open a fresh connection and send the `publish` packet on it.  `rs`
supplies the random draw for each group in order. -/
def _connect_and_publish (rs : List Nat) (pidc : Nat)
    (publish_id service version endpoint payload : PyVal) :
    List ((PyVal × PyVal) × List SubEntry) → Option (List PubAction)
  | [] => some []
  | (_, value) :: rest => do
      let target ← selectTarget value (rs.headD 0)
      let more ← _connect_and_publish rs.tail (pidc + 1) publish_id service version
        endpoint payload rest
      pure (PubAction.connect target.1 target.2 ::
        PubAction.sendPublish target.1 target.2
          (MessagePacket.publish (nextPidStr pidc) publish_id service version
            endpoint payload) :: more)

/-- One iteration of `PubSubBus.xpublish` with the subscriber list the
registry returned for this round: group the subscribers, then either — zero
subscribers — cancel the future read from `pending_publishes[publish_id]`
(a `KeyError`, modelled `none`, when the id is absent; the entry itself is
*not* removed) and return, or publish to every group and fall through to the
5-second sleep and the tail-recursive `xpublish` call (modelled as a
`scheduleRetry` action). -/
def xpublishIter (rs : List Nat) (pending_publishes : List (PyVal × Nat))
    (pidc : Nat) (publish_id service version endpoint payload : PyVal)
    (subscribers : List Subscriber) :
    Option (List (PyVal × Nat) × List PubAction) :=
  let strategies := buildStrategies subscribers
  if subscribers.length = 0 then
    match pyGet pending_publishes publish_id with
    | none => none
    | some future => some (pending_publishes, [PubAction.cancel future])
  else
    match _connect_and_publish rs pidc publish_id service version endpoint
        payload strategies with
    | none => none
    | some acts => some (pending_publishes, acts ++ [PubAction.scheduleRetry publish_id])

/-- Model of `PubSubBus.receive`: on an `ack` packet,
`self._pending_publishes.pop(packet['request_id'])` — a `KeyError`, modelled
`none`, when the request id is not pending — then cancel the popped future
and close the transport.  Any other packet type does nothing. -/
def receive (pending_publishes : List (PyVal × Nat)) (packet : Packet) :
    Option (List (PyVal × Nat) × List PubAction) := do
  let t ← pyGet packet "type"
  if t = PyVal.str "ack" then
    match pyGet packet "request_id" with
    | none => none
    | some request_id =>
        match pyGet pending_publishes request_id with
        | none => none
        | some future =>
            pure (pyDictPop pending_publishes request_id,
              [PubAction.cancel future, PubAction.closeTransport])
  else pure (pending_publishes, [])

end PubSubBus

namespace Scenario

/-- The dependency descriptor `{'service': 'B', 'version': '1'}`. -/
def depB : Dep := ⟨.str "B", .str "1"⟩

def paramsA1 : Registry.RegisterParams :=
  ⟨.str "A", .str "1", [depB], .int 8001, .str "n1", .str "tcp"⟩

def paramsA2 : Registry.RegisterParams :=
  ⟨.str "A", .str "1", [depB], .int 8002, .str "n2", .str "tcp"⟩

def paramsB : Registry.RegisterParams :=
  ⟨.str "B", .str "1", [], .int 9001, .str "nb", .str "tcp"⟩

/-- State after registering `A/1@n1` (protocol 1). -/
def c1_st1 : RegState :=
  ((Registry.register_service Registry.initState paramsA1 1 (.str "ha")).getD
    (Registry.initState, [])).1

/-- State after additionally registering `A/1@n2` (protocol 2). -/
def c1_st2 : RegState :=
  ((Registry.register_service c1_st1 paramsA2 2 (.str "ha")).getD
    (Registry.initState, [])).1

/-- The register of `B/1@nb` (protocol 3) that triggers the activation sweep
with two pending `A/1` nodes. -/
def c1_result : Option (RegState × List Effect) :=
  Registry.register_service c1_st2 paramsB 3 (.str "hb")

def c1_state : RegState := (c1_result.getD (Registry.initState, [])).1

def c1_effects : List Effect := (c1_result.getD (Registry.initState, [])).2

/-- How many `activated` packets an effect list sends to a given protocol. -/
def activatedSends (effs : List Effect) (proto : Nat) : Nat :=
  (effs.filter fun e =>
    match e with
    | Effect.sendActivated p _ => p == proto
    | _ => false).length

end Scenario

namespace Scenario

/-- Registration of `A/1@na` (protocol 2) depending on `B/1`. -/
def paramsA : Registry.RegisterParams :=
  ⟨.str "A", .str "1", [depB], .int 8001, .str "na", .str "tcp"⟩

/-- State with `B/1@nb` (protocol 1) registered and activated. -/
def c3_stB : RegState :=
  ((Registry.register_service Registry.initState paramsB 1 (.str "hb")).getD
    (Registry.initState, [])).1

/-- State with `B/1@nb` and `A/1@na` both registered and activated. -/
def c3_st : RegState :=
  ((Registry.register_service c3_stB paramsA 2 (.str "ha")).getD
    (Registry.initState, [])).1

/-- Deregistering the sole `B/1` instance. -/
def c3_result : Option (RegState × List Effect) :=
  Registry.deregister_service c3_st (.str "nb")

def c3_state : RegState := (c3_result.getD (Registry.initState, [])).1

def c3_effects : List Effect := (c3_result.getD (Registry.initState, [])).2

/-- C2 scenario: `A/1@n1` registered, with no dependencies and no consumers. -/
def c2_state : RegState :=
  ((Registry.register_service Registry.initState
      ⟨.str "A", .str "1", [], .int 8001, .str "n1", .str "tcp"⟩ 1 (.str "ha")).getD
    (Registry.initState, [])).1

/-- C2 scenario with one consumer: `C/1@nc` depends on `A/1`. -/
def c2_state2 : RegState :=
  ((Registry.register_service c2_state
      ⟨.str "C", .str "1", [⟨.str "A", .str "1"⟩], .int 8002, .str "nc", .str "tcp"⟩ 2
      (.str "ha")).getD (Registry.initState, [])).1

/-- A two-subscriber group registered in the order `[RANDOM, LEADER]`. -/
def c5_group : List SubEntry :=
  [⟨.str "h1", .int 8001, .str "s1", .str "RANDOM"⟩,
   ⟨.str "h2", .int 8002, .str "s2", .str "LEADER"⟩]

end Scenario

namespace Scenario

/-- C8 counterexample call: `A` registered with *integer* version `1`,
depending on `B` with integer version `1`. -/
def c8_svc : ServiceRec :=
  ⟨.str "A", .int 1, [⟨.str "B", .int 1⟩], .str "h", .int 9001, .str "n1", .str "tcp"⟩

def c8_repo : Repo := Repository.register_service Repository.emptyRepo c8_svc

/-- C8 witness calls: `A/1` (string versions) depending on `B/2`. -/
def c8_calls : List ServiceRec :=
  [⟨.str "A", .str "1", [⟨.str "B", .str "2"⟩], .str "ha", .int 8001, .str "n1", .str "tcp"⟩]

end Scenario

/-- A `register_service` call whose service name and version are slash-free
strings. -/
def goodCall (s : ServiceRec) : Bool :=
  match s.name, s.version with
  | .str n, .str v => decide ('/' ∉ n.toList) && decide ('/' ∉ v.toList)
  | _, _ => false

/-- The repository state reached by a sequence of `register_service` calls
from the empty repository. -/
def repoOfCalls (calls : List ServiceRec) : Repo :=
  calls.foldl Repository.register_service Repository.emptyRepo

/-- Well-formedness of the `_service_dependencies` dict: keys are unique and
each key is `a ++ "/" ++ b` for slash-free `a`, `b`. -/
def DepsWF (r : Repo) : Prop :=
  (r.deps.map Prod.fst).Nodup ∧
  ∀ e ∈ r.deps, ∃ a b, '/' ∉ a.toList ∧ '/' ∉ b.toList ∧ e.1 = a ++ "/" ++ b

theorem PyVal.beq_iff {a b : PyVal} : (a == b) = true ↔ a = b := by
  simp [BEq.beq]

theorem pyGet_pyDictSet_self {κ α : Type} [DecidableEq κ] (d : List (κ × α)) (k : κ) (v : α) :
    pyGet (pyDictSet d k v) k = some v := by
  induction d with
  | nil => simp [pyDictSet, pyGet]
  | cons e rest ih =>
    obtain ⟨k0, v0⟩ := e
    by_cases h : k0 = k <;> simp [pyDictSet, pyGet, h, ih]

theorem PyVal.beq_eq_false {a b : PyVal} (h : a ≠ b) : (a == b) = false := by
  simp [BEq.beq, h]

/-- Claim C1 — the claim fails on the code (code bug).  Claim: processing a
register packet sends every node pending for `(s,v)` — all of whose
dependencies have an instance — exactly one `activated` packet and leaves no
such node pending, for every number of pending nodes.  In the state with two
pending `A/1` nodes `n1` (protocol 1) and `n2` (protocol 2) and the
dependency `B/1` freshly registered, the sweep's node loop removes entries
from the very list it is iterating, so it activates `n1`, silently skips
`n2` (no `activated` packet), and leaves `n2` pending. -/
theorem c1_sweep_skips_second_pending_node :
    Scenario.c1_result.isSome = true ∧
    Repository.get_pending_instances Scenario.c1_state.repo (.str "A") (.str "1") =
      [PyVal.str "n2"] ∧
    Scenario.activatedSends Scenario.c1_effects 2 = 0 ∧
    Scenario.activatedSends Scenario.c1_effects 1 = 1 := by
  refine ⟨rfl, rfl, rfl, rfl⟩

/-- Claim C2 — the claim fails on the code (code bug).  Claim: a
`get_instances` request for `(service, version)` is answered with a
`send_instances` envelope listing the registered instances of that service.
The handler actually fetches `get_consumers(service, version)`: with `A/1`
registered (one instance) and no consumers it replies with an *empty*
instance list, and as soon as one consumer exists the 4-tuple unpack inside
`ControlPacket.send_instances` raises on the 2-tuple consumer keys
(modelled `none`). -/
theorem c2_get_instances_replies_consumers :
    Repository.get_instances Scenario.c2_state.repo (.str "A") (.str "1") =
      [⟨.str "ha", .int 8001, .str "n1", .str "tcp"⟩] ∧
    Registry.get_service_instances Scenario.c2_state (.str "A") (.str "1") 5 =
      some ({ Scenario.c2_state with pidCounter := 2 },
        [Effect.sendInstances 5 ⟨"pid-1", .str "A", .str "1", []⟩]) ∧
    Registry.get_service_instances Scenario.c2_state2 (.str "A") (.str "1") 5 = none := by
  refine ⟨rfl, rfl, rfl⟩

/-- Claim C3 — the claim fails on the code (code bug).  Claim: deregistering
the sole instance of `B/1` re-adds every instance of every consumer of `B/1`
to pending.  With `B/1@nb` and its consumer `A/1@na` registered and
activated, `deregister_service('nb')` notifies `na` but re-pends nothing:
the instance is never removed from `_registered_services`, so the
"last instance gone" guard sees a non-empty list and the re-pend branch is
dead (and even inside it the loop would iterate over that same list the
guard requires to be empty). -/
theorem c3_deregister_never_repends_consumers :
    Scenario.c3_result.isSome = true ∧
    Repository.get_pending_instances Scenario.c3_state.repo (.str "A") (.str "1") = [] ∧
    Scenario.c3_effects =
      [Effect.sendDeregister 2 ⟨"pid-2", .str "nb", .str "B", .str "1"⟩] ∧
    (Repository.get_instances Scenario.c3_state.repo (.str "B") (.str "1")).length = 1 := by
  refine ⟨rfl, rfl, rfl, rfl⟩

/-- Claim C4 — the claim fails on the code (code bug).  Claim: after
`deregister_service(node_id)` completes for a registered node,
`get_node(node_id)` returns `None` and the node is absent from both protocol
maps.  The protocol maps are indeed popped, but the instance is never
removed from `_registered_services`, so `get_node('nb')` still returns the
supposedly deregistered service. -/
theorem c4_deregistered_node_still_reachable :
    Repository.get_node Scenario.c3_state.repo (.str "nb") =
      some (some ⟨.str "B", .str "1", [], .str "hb", .int 9001, .str "nb", .str "tcp"⟩) ∧
    Repository.get_node Scenario.c3_state.repo (.str "nb") ≠ some none ∧
    pyGet Scenario.c3_state.client_protocols (.str "nb") = none ∧
    pyGet Scenario.c3_state.service_protocols (.str "nb") = none := by
  refine ⟨rfl, by decide, rfl, rfl⟩

/-- Claim C5 — counterexample.  Claim: if *any* subscriber in the group has
strategy `LEADER` then the *first* subscriber's address is selected.  In the
group registered as `[RANDOM, LEADER]` the code only tests `value[0][3]`, so
it takes the random branch: the draw index 1 (a value `random.choice` can
produce on a two-element group) selects the second subscriber's address, not
the first's. -/
theorem c5_counterexample :
    (∃ m ∈ Scenario.c5_group, m.strategy = PyVal.str "LEADER") ∧
    PubSubBus.selectTarget Scenario.c5_group 1 = some (PyVal.str "h2", PyVal.int 8002) ∧
    PubSubBus.selectTarget Scenario.c5_group 1 ≠ some (PyVal.str "h1", PyVal.int 8001) := by
  refine ⟨⟨⟨.str "h2", .int 8002, .str "s2", .str "LEADER"⟩, by decide, rfl⟩, rfl, by decide⟩

/-- Claim C5, amended — what the code does: only the *first* subscriber's
strategy is consulted.  If `value[0]` has strategy `LEADER` the first
subscriber's address is always selected; otherwise the target is the entry
at the random draw index (uniform over the group, the draw being any index
below the group's length). -/
theorem c5_amended (v0 : SubEntry) (rest : List SubEntry) (r : Nat) :
    (v0.strategy = PyVal.str "LEADER" →
      PubSubBus.selectTarget (v0 :: rest) r = some (v0.host, v0.port)) ∧
    (v0.strategy ≠ PyVal.str "LEADER" → r < (v0 :: rest).length →
      ∃ m, (v0 :: rest)[r]? = some m ∧
        PubSubBus.selectTarget (v0 :: rest) r = some (m.host, m.port)) := by
  constructor
  · intro h
    simp [PubSubBus.selectTarget, h, PyVal.beq_iff]
  · intro h hr
    refine ⟨(v0 :: rest)[r], List.getElem?_eq_getElem hr, ?_⟩
    simp [PubSubBus.selectTarget, PyVal.beq_eq_false h, List.getElem?_eq_getElem hr]

theorem c5_amended_witness :
    PubSubBus.selectTarget
      [⟨PyVal.str "hL", PyVal.int 1, PyVal.str "nL", PyVal.str "LEADER"⟩] 0 =
      some (PyVal.str "hL", PyVal.int 1) ∧
    (∃ m, ([(⟨PyVal.str "hR", PyVal.int 2, PyVal.str "nR", PyVal.str "RANDOM"⟩ : SubEntry)])[0]? =
        some m ∧
      PubSubBus.selectTarget
        [⟨PyVal.str "hR", PyVal.int 2, PyVal.str "nR", PyVal.str "RANDOM"⟩] 0 =
        some (m.host, m.port)) :=
  ⟨(c5_amended ⟨PyVal.str "hL", PyVal.int 1, PyVal.str "nL", PyVal.str "LEADER"⟩ [] 0).1 rfl,
   (c5_amended ⟨PyVal.str "hR", PyVal.int 2, PyVal.str "nR", PyVal.str "RANDOM"⟩ [] 0).2
     (by decide) (by decide)⟩

/-- Claim C6 — confirmed.  When the registry returns zero subscribers for an
xpublish iteration, the future stored under the publish id in
`pending_publishes` is cancelled and the iteration returns: no connection is
opened, no publish packet is sent, no retry is scheduled (and the pending
entry itself is left in place). -/
theorem c6_zero_subscribers_cancels_and_stops
    (rs : List Nat) (pending : List (PyVal × Nat)) (pidc : Nat)
    (publish_id service version endpoint payload : PyVal) (future : Nat)
    (hpend : pyGet pending publish_id = some future) :
    PubSubBus.xpublishIter rs pending pidc publish_id service version endpoint
        payload [] =
      some (pending, [PubAction.cancel future]) ∧
    (∀ host port, PubAction.connect host port ∉ [PubAction.cancel future]) ∧
    (∀ host port pkt, PubAction.sendPublish host port pkt ∉ [PubAction.cancel future]) ∧
    (∀ pid2, PubAction.scheduleRetry pid2 ∉ [PubAction.cancel future]) := by
  refine ⟨?_, ?_, ?_, ?_⟩
  · simp [PubSubBus.xpublishIter, hpend]
  · intro host port; simp
  · intro host port pkt; simp
  · intro pid2; simp

theorem c6_witness :
    PubSubBus.xpublishIter [] [(PyVal.str "u1", 7)] 0 (PyVal.str "u1")
        (PyVal.str "S") (PyVal.str "1") (PyVal.str "E") (PyVal.str "pay") [] =
      some ([(PyVal.str "u1", 7)], [PubAction.cancel 7]) :=
  (c6_zero_subscribers_cancels_and_stops [] [(PyVal.str "u1", 7)] 0 (PyVal.str "u1")
    (PyVal.str "S") (PyVal.str "1") (PyVal.str "E") (PyVal.str "pay") 7 rfl).1

/-- Claim C7 — counterexample.  Claim: every outbound packet from a bus carries
`from = host_id`, including the pong reply on the ping receive path and the
ack reply on the publish receive path.  The pong reply is built by
`ControlPacket.pong` and sent directly with `protocol.send`, bypassing
`TCPBus.send`; it carries no `from` field at all (likewise the ack built by
`MessagePacket.ack`), so in particular its `from` is not any bus's host id. -/
theorem c7_counterexample :
    TCPBus._handle_ping 0 (_Packet.ping "pid-9" (PyVal.str "n1")) =
      some (_Packet.pong "pid-0" (PyVal.str "n1")) ∧
    pyGet (_Packet.pong "pid-0" (PyVal.str "n1")) "from" = none ∧
    pyGet (_Packet.pong "pid-0" (PyVal.str "n1")) "from" ≠ some (PyVal.str "host-1") ∧
    pyGet (_Packet.ack "pid-0" (PyVal.str "u1")) "from" = none := by
  refine ⟨rfl, rfl, by decide, rfl⟩

/-- Claim C7, amended — packets that go out through `TCPBus.send` are stamped
`from = host_id` (the stamp happens before dispatch, and the enqueued request
is the stamped packet); the pong and ack replies emitted directly on the
protocol by the ping and publish receive paths carry no `from` field. -/
theorem c7_amended :
    (∀ (host_id : String) (packet : Packet),
      pyGet (TCPBus.stamp_from host_id packet) "from" = some (PyVal.str host_id)) ∧
    (∀ (host_id : String) (pending : List Packet) (packet : Packet)
        (out : List Packet), TCPBus.send host_id pending packet = some out →
      out = pending ++ [TCPBus.stamp_from host_id packet]) ∧
    (∀ (pid : String) (node_id : PyVal), pyGet (_Packet.pong pid node_id) "from" = none) ∧
    (∀ (pid : String) (request_id : PyVal), pyGet (_Packet.ack pid request_id) "from" = none) := by
  refine ⟨?_, ?_, ?_, ?_⟩
  · intro host_id packet
    exact pyGet_pyDictSet_self packet "from" (PyVal.str host_id)
  · intro host_id pending packet out h
    unfold TCPBus.send at h
    split at h
    · exact (Option.some.inj h).symm
    · exact absurd h (by simp)
  · intro pid node_id; rfl
  · intro pid request_id; rfl

theorem c7_amended_witness :
    [TCPBus.stamp_from "h1" [("type", PyVal.str "request")]] =
      [] ++ [TCPBus.stamp_from "h1" [("type", PyVal.str "request")]] ∧
    pyGet (TCPBus.stamp_from "h1" [("type", PyVal.str "request")]) "from" =
      some (PyVal.str "h1") :=
  ⟨c7_amended.2.1 "h1" [] [("type", PyVal.str "request")]
      [TCPBus.stamp_from "h1" [("type", PyVal.str "request")]] rfl,
   c7_amended.1 "h1" [("type", PyVal.str "request")]⟩

/-- Claim C9 — the claim fails on the code (code bug).  Claim: every pong
envelope carries the responder's `node_id` plus a `count` field.  The codec's
only pong factory (`_Packet._get_ping_pong`) emits `pid`, `type` and
`node_id` but never `count`, while the bus's pong receive path does read both
`node_id` and `count` — so a pong built by this codec makes the receive path
raise `KeyError('count')` (modelled `none`): the code contradicts its own
receive path. -/
theorem c9_pong_has_no_count_field :
    (∀ (pid : String) (node_id : PyVal), pyGet (_Packet.pong pid node_id) "count" = none) ∧
    pyGet (_Packet.pong "pid-0" (PyVal.str "n1")) "node_id" = some (PyVal.str "n1") ∧
    TCPBus.receive_pong [(PyVal.str "n1", 4)] (_Packet.pong "pid-0" (PyVal.str "n1")) =
      none := by
  refine ⟨fun pid node_id => rfl, rfl, rfl⟩

/-- Claim C10 — confirmed.  `PubSubBus.receive` pops the `pending_publishes`
entry keyed by the ack's `request_id` and then cancels the popped future and
closes the transport; when the `request_id` has no pending entry the `pop`
raises `KeyError` (modelled `none`) instead of silently ignoring the ack. -/
theorem c10_ack_pops_or_raises
    (pending : List (PyVal × Nat)) (packet : Packet) (request_id : PyVal)
    (htype : pyGet packet "type" = some (PyVal.str "ack"))
    (hrid : pyGet packet "request_id" = some request_id) :
    (∀ future, pyGet pending request_id = some future →
      PubSubBus.receive pending packet =
        some (pyDictPop pending request_id,
          [PubAction.cancel future, PubAction.closeTransport])) ∧
    (pyGet pending request_id = none → PubSubBus.receive pending packet = none) := by
  constructor
  · intro future hf
    simp [PubSubBus.receive, htype, hrid, hf]
  · intro hf
    simp [PubSubBus.receive, htype, hrid, hf]

theorem c10_witness :
    PubSubBus.receive [(PyVal.str "u1", 7)] (_Packet.ack "pid-0" (PyVal.str "u1")) =
      some ([], [PubAction.cancel 7, PubAction.closeTransport]) ∧
    PubSubBus.receive [] (_Packet.ack "pid-0" (PyVal.str "u1")) = none :=
  ⟨(c10_ack_pops_or_raises [(PyVal.str "u1", 7)] (_Packet.ack "pid-0" (PyVal.str "u1"))
      (PyVal.str "u1") rfl rfl).1 7 rfl,
   (c10_ack_pops_or_raises [] (_Packet.ack "pid-0" (PyVal.str "u1"))
      (PyVal.str "u1") rfl rfl).2 rfl⟩

theorem pySplitAux_no_sep (sep : Char) (l acc : List Char) (h : sep ∉ l) :
    pySplitAux sep l acc = [acc.reverse ++ l] := by
  induction l generalizing acc with
  | nil => simp [pySplitAux]
  | cons c cs ih =>
    have hc : c ≠ sep := fun e => h (e ▸ List.mem_cons_self c cs)
    have hcs : sep ∉ cs := fun e => h (List.mem_cons_of_mem c e)
    simp [pySplitAux, hc, ih (c :: acc) hcs]

theorem pySplitAux_sep_split (sep : Char) (a b acc : List Char)
    (ha : sep ∉ a) (hb : sep ∉ b) :
    pySplitAux sep (a ++ sep :: b) acc = [acc.reverse ++ a, b] := by
  induction a generalizing acc with
  | nil => simp [pySplitAux, pySplitAux_no_sep sep b [] hb]
  | cons c cs ih =>
    have hc : c ≠ sep := fun e => ha (e ▸ List.mem_cons_self c cs)
    have hcs : sep ∉ cs := fun e => ha (List.mem_cons_of_mem c e)
    simp [pySplitAux, hc, ih (c :: acc) hcs]

theorem pySplit_slash_pair (a b : String) (ha : '/' ∉ a.toList) (hb : '/' ∉ b.toList) :
    pySplit '/' (a ++ "/" ++ b) = [a, b] := by
  unfold pySplit
  have htl : (a ++ "/" ++ b).toList = a.toList ++ '/' :: b.toList := by
    show (a.toList ++ ['/']) ++ b.toList = a.toList ++ '/' :: b.toList
    simp
  rw [htl, pySplitAux_sep_split '/' a.toList b.toList [] ha hb]
  simp [List.map]

theorem split_key_full_name (a b : String) (ha : '/' ∉ a.toList) (hb : '/' ∉ b.toList) :
    Repository._split_key (Repository._get_full_service_name (.str a) (.str b)) =
      [PyVal.str a, PyVal.str b] := by
  unfold Repository._split_key Repository._get_full_service_name
  rw [show (PyVal.str a).format = a from rfl, show (PyVal.str b).format = b from rfl,
    pySplit_slash_pair a b ha hb]
  rfl

theorem pyGet_eq_none_iff {κ α : Type} [DecidableEq κ] (d : List (κ × α)) (k : κ) :
    pyGet d k = none ↔ k ∉ d.map Prod.fst := by
  induction d with
  | nil => simp [pyGet]
  | cons e rest ih =>
    obtain ⟨k0, v0⟩ := e
    by_cases h : k0 = k
    · subst h
      simp [pyGet]
    · simp only [pyGet, if_neg h, List.map_cons, List.mem_cons, ih]
      constructor
      · intro hn hc
        rcases hc with h1 | h2
        · exact h h1.symm
        · exact hn h2
      · intro hn h2
        exact hn (Or.inr h2)

theorem pyGet_mem {κ α : Type} [DecidableEq κ] {d : List (κ × α)} {k : κ} {v : α}
    (h : pyGet d k = some v) : (k, v) ∈ d := by
  induction d with
  | nil => simp [pyGet] at h
  | cons e rest ih =>
    obtain ⟨k0, v0⟩ := e
    by_cases hk : k0 = k
    · subst hk
      simp [pyGet] at h
      subst h
      exact List.mem_cons_self _ _
    · simp [pyGet, hk] at h
      exact List.mem_cons_of_mem _ (ih h)

theorem mem_pyGet {κ α : Type} [DecidableEq κ] {d : List (κ × α)} {k : κ} {v : α}
    (hnd : (d.map Prod.fst).Nodup) (h : (k, v) ∈ d) : pyGet d k = some v := by
  induction d with
  | nil => cases h
  | cons e rest ih =>
    obtain ⟨k0, v0⟩ := e
    rcases List.mem_cons.mp h with h1 | h2
    · cases h1
      simp [pyGet]
    · have hk : k0 ≠ k := by
        intro he
        subst he
        exact (List.nodup_cons.mp hnd).1
          (by simpa using List.mem_map_of_mem Prod.fst h2)
      rw [pyGet, if_neg hk]
      exact ih (List.nodup_cons.mp hnd).2 h2

theorem pyDictSet_absent {κ α : Type} [DecidableEq κ] {d : List (κ × α)} {k : κ} (v : α)
    (h : pyGet d k = none) : pyDictSet d k v = d ++ [(k, v)] := by
  induction d with
  | nil => simp [pyDictSet]
  | cons e rest ih =>
    obtain ⟨k0, v0⟩ := e
    by_cases hk : k0 = k
    · simp [pyGet, hk] at h
    · rw [pyGet, if_neg hk] at h
      simp [pyDictSet, hk, ih h]

theorem depsWF_register (r : Repo) (s : ServiceRec) (hgood : goodCall s = true)
    (hr : DepsWF r) : DepsWF (Repository.register_service r s) := by
  obtain ⟨hnd, hkeys⟩ := hr
  rcases hget : pyGet r.deps (Repository._get_full_service_name s.name s.version) with _ | ds
  · -- key absent: the dependency entry is appended
    rcases hsn : s.name with n | n
    rotate_left
    · rw [goodCall, hsn] at hgood
      cases s.version <;> simp at hgood
    rcases hsv : s.version with v | v
    rotate_left
    · rw [goodCall, hsn, hsv] at hgood
      simp at hgood
    rw [goodCall, hsn, hsv] at hgood
    simp only [Bool.and_eq_true, decide_eq_true_eq] at hgood
    constructor
    · show ((Repository.register_service r s).deps.map Prod.fst).Nodup
      rw [Repository.register_service]
      simp only [hget, Option.isNone_none, if_pos]
      rw [pyDictSet_absent s.dependencies hget]
      rw [List.map_append]
      refine List.Nodup.append hnd (by simp) ?_
      intro x hx hmem
      simp at hmem
      subst hmem
      exact (pyGet_eq_none_iff r.deps _).mp hget hx
    · intro e he
      rw [Repository.register_service] at he
      simp only [hget, Option.isNone_none, if_pos] at he
      rw [pyDictSet_absent s.dependencies hget] at he
      rcases List.mem_append.mp he with h1 | h2
      · exact hkeys e h1
      · simp at h2
        subst h2
        refine ⟨n, v, hgood.1, hgood.2, ?_⟩
        show Repository._get_full_service_name s.name s.version = n ++ "/" ++ v
        rw [hsn, hsv]
        rfl
  · -- key present: the dependency dict is unchanged
    constructor
    · show ((Repository.register_service r s).deps.map Prod.fst).Nodup
      rw [Repository.register_service]
      simp only [hget, Option.isNone_some]
      exact hnd
    · intro e he
      rw [Repository.register_service] at he
      simp only [hget, Option.isNone_some] at he
      exact hkeys e he

theorem depsWF_empty : DepsWF Repository.emptyRepo := by
  constructor <;> simp [Repository.emptyRepo]

theorem depsWF_fold (calls : List ServiceRec) (r : Repo)
    (hg : ∀ c ∈ calls, goodCall c = true) (hr : DepsWF r) :
    DepsWF (calls.foldl Repository.register_service r) := by
  induction calls generalizing r with
  | nil => simpa using hr
  | cons c cs ih =>
    exact ih (Repository.register_service r c)
      (fun x hx => hg x (List.mem_cons_of_mem c hx))
      (depsWF_register r c (hg c (List.mem_cons_self c cs)) hr)

theorem mem_get_consumers {r : Repo} {s v : PyVal} {t : List PyVal} :
    t ∈ Repository.get_consumers r s v ↔
      ∃ e ∈ r.deps, (∃ d ∈ e.2, d.service = s ∧ d.version = v) ∧
        t = Repository._split_key e.1 := by
  unfold Repository.get_consumers
  simp only [List.mem_flatMap, List.mem_map, List.mem_filter, Bool.and_eq_true,
    PyVal.beq_iff]
  constructor
  · rintro ⟨e, he, ⟨d, ⟨hd, hds, hdv⟩, ht⟩⟩
    exact ⟨e, he, ⟨d, hd, hds, hdv⟩, ht.symm⟩
  · rintro ⟨e, he, ⟨d, hd, hds, hdv⟩, ht⟩
    exact ⟨e, he, ⟨d, ⟨hd, hds, hdv⟩, ht.symm⟩⟩

/-- Claim C8 — counterexample.  Claim: `(s,v) ∈ get_vendors(s',v')` iff
`(s',v') ∈ get_consumers(s,v)`, "including when versions are supplied in
different representations".  Register `A` under the *integer* version `1`
depending on `(B, 1₍int₎)`: `(B, 1₍int₎)` is a vendor of `(A, 1₍int₎)` (the
key `'A/1'` formats the int away), but `get_consumers(B, 1₍int₎)` returns the
split key `('A', '1')` whose components are *strings*, so `(A, 1₍int₎)` is
not among the consumers — the equivalence fails across representations. -/
theorem c8_counterexample :
    ((⟨.str "B", .int 1⟩ : Dep) ∈
        Repository.get_vendors Scenario.c8_repo (.str "A") (.int 1)) ∧
    [PyVal.str "A", PyVal.int 1] ∉
        Repository.get_consumers Scenario.c8_repo (.str "B") (.int 1) ∧
    [PyVal.str "A", PyVal.str "1"] ∈
        Repository.get_consumers Scenario.c8_repo (.str "B") (.int 1) := by
  refine ⟨by decide, by decide, by decide⟩

/-- Claim C8, amended — the inverse relationship between `get_vendors` and
`get_consumers` holds on every repository reachable by `register_service`
calls whose service names and versions are slash-free *strings*, for
slash-free string query pairs: `(s,v) ∈ get_vendors(s',v')` iff the split-key
tuple `(s',v')` is in `get_consumers(s,v)`.  (With versions of differing
runtime types — e.g. `1` vs `'1'` — the equivalence fails, as
`get_consumers` rebuilds consumer tuples from string keys while
`get_vendors` returns the dependency dicts as registered.) -/
theorem c8_amended (calls : List ServiceRec)
    (hcalls : ∀ c ∈ calls, goodCall c = true)
    (s v sc vc : String)
    (hsc : '/' ∉ sc.toList) (hvc : '/' ∉ vc.toList) :
    ((⟨.str s, .str v⟩ : Dep) ∈
        Repository.get_vendors (repoOfCalls calls) (.str sc) (.str vc)) ↔
      [PyVal.str sc, PyVal.str vc] ∈
        Repository.get_consumers (repoOfCalls calls) (.str s) (.str v) := by
  obtain ⟨hnd, hkeys⟩ := depsWF_fold calls Repository.emptyRepo hcalls depsWF_empty
  constructor
  · intro hv
    unfold Repository.get_vendors at hv
    rcases hget : pyGet (repoOfCalls calls).deps
        (Repository._get_full_service_name (.str sc) (.str vc)) with _ | ds
    · rw [hget] at hv
      simp at hv
    · rw [hget] at hv
      simp only [Option.getD_some] at hv
      rw [mem_get_consumers]
      exact ⟨(Repository._get_full_service_name (.str sc) (.str vc), ds),
        pyGet_mem hget, ⟨⟨.str s, .str v⟩, hv, rfl, rfl⟩,
        (split_key_full_name sc vc hsc hvc).symm⟩
  · intro hc
    rw [mem_get_consumers] at hc
    obtain ⟨e, he, ⟨d, hd, hds, hdv⟩, ht⟩ := hc
    obtain ⟨a, b, hA, hB, hKey⟩ := hkeys e he
    have hsplit : Repository._split_key e.1 = [PyVal.str a, PyVal.str b] := by
      unfold Repository._split_key
      rw [hKey, pySplit_slash_pair a b hA hB]
      rfl
    rw [hsplit] at ht
    simp only [List.cons.injEq, PyVal.str.injEq, and_true] at ht
    obtain ⟨hsa, hvb⟩ := ht
    have hkey2 : e.1 = Repository._get_full_service_name (.str sc) (.str vc) := by
      rw [hKey, ← hsa, ← hvb]
      rfl
    have hget : pyGet (repoOfCalls calls).deps e.1 = some e.2 := mem_pyGet hnd he
    unfold Repository.get_vendors
    rw [← hkey2, hget]
    simp only [Option.getD_some]
    have hde : d = ⟨.str s, .str v⟩ := by
      cases d
      simp_all
    rw [← hde]
    exact hd

theorem c8_amended_witness :
    ((⟨.str "B", .str "2"⟩ : Dep) ∈
        Repository.get_vendors (repoOfCalls Scenario.c8_calls) (.str "A") (.str "1")) ↔
      [PyVal.str "A", PyVal.str "1"] ∈
        Repository.get_consumers (repoOfCalls Scenario.c8_calls) (.str "B") (.str "2") :=
  c8_amended Scenario.c8_calls (by decide) "B" "2" "A" "1" (by decide) (by decide)
